import Mathlib

/-!
# Verification of the j1708-stats protocol decoding engine

Shallow embedding of the Go sources of `serebryakov7/j1708-stats`:
the J1587 checksum and frame walk (`cmd/agent-j1587/bus.go`), the J1939
frame processor (`parseEEC1`, `parseDM1`, `parseDM2`), the DTC
deduplication store (`pkg/storage/dtc.go`), the MQTT command handler,
and the `ProtectedData` metric table (`cmd/agent-j1587/data.go`).

Conventions of the embedding:
* Go `byte` / integer values are modelled as `Nat` (Go's truncating
  conversions are written with explicit `% 256` etc. where they matter).
* Go `float64` values are modelled as exact rationals `ℚ`.  Every value a
  theorem below mentions arises from dyadic arithmetic on small integers
  (multiples of `0.125`, integer offsets), which binary64 represents and
  computes exactly, so the rational model agrees with the Go float
  semantics on those values.
* Go maps (`map[string]any`) are modelled as association lists with
  last-write-wins update; all statements are made through `lookup`, which
  matches Go map semantics.
* Environmental effects (wall-clock timestamps, bbolt I/O errors, channel
  scheduling) are explicit parameters of the corresponding definitions.
-/

namespace J1708Stats

/-- A Go `any` value as stored in the `ProtectedData` metric map:
a `float64` (modelled as `ℚ`), a `string`, or Go `nil`. -/
inductive GoValue where
  | num (q : ℚ)
  | str (s : String)
  | null
deriving DecidableEq

/-- A metric map `map[string]any`, as an association list read through
`List.lookup` (Go map assignment is last-write-wins). -/
abbrev DataMap := List (String × GoValue)

/-- Go map assignment `m[k] = v`: replaces any previous binding of `k`. -/
def mapSet (m : DataMap) (k : String) (v : GoValue) : DataMap :=
  (k, v) :: m.filter (fun p => p.1 ≠ k)

/-! ## J1587 checksum (`cmd/agent-j1587/bus.go`, `calculateJ1587Checksum` /
`validateJ1587Checksum`) -/

/-- `calculateJ1587Checksum`: `byte(256 - (sum % 256))`.  The Go `byte`
conversion truncates mod 256, which matters exactly when `sum % 256 = 0`. -/
def calculateJ1587Checksum (frame : List Nat) : Nat :=
  (256 - frame.sum % 256) % 256

/-- `validateJ1587Checksum`: frames shorter than 3 bytes are rejected;
otherwise the byte sum must be `0 mod 256`. -/
def validateJ1587Checksum (frame : List Nat) : Bool :=
  if frame.length < 3 then false
  else frame.sum % 256 == 0

/-- Frame construction in `Bus.SendFrame`: `MID, PID, data..., checksum`. -/
def buildJ1587Frame (mid pid : Nat) (data : List Nat) : List Nat :=
  let frame := mid :: pid :: data
  frame ++ [calculateJ1587Checksum frame]

/-! ## J1587 PID/data walk (`getPIDDataLength` / `Bus.parseFrame`)

The Go code walks `data` with an integer `offset`; the embedding walks the
suffix `data[offset:]` directly, which is the same traversal. -/

/-- `getPIDDataLength pid rest`: `rest` is the suffix `data[offset:]`.
Returns `none` where the Go function returns an error (variable-length PID
with no length byte available, or PID 254/255). -/
def getPIDDataLength (pid : Nat) (rest : List Nat) : Option Nat :=
  if pid ≤ 127 then some 1
  else if pid ≤ 191 then some 2
  else if pid ≤ 253 then
    match rest with
    | [] => none
    | b :: _ => some b
  else none

/-- One iteration of the `for offset < len(data)` loop in `Bus.parseFrame`:
consumes one PID byte, determines the data length (re-reading and consuming
the explicit length byte for PIDs 192–253, as the Go code does), and returns
the `(pid, paramData)` block together with the unconsumed suffix.  `none`
models every `break` of the Go loop. -/
def pidStep (xs : List Nat) : Option ((Nat × List Nat) × List Nat) :=
  match xs with
  | [] => none
  | pid :: rest =>
    match getPIDDataLength pid rest with
    | none => none
    | some dl0 =>
      if 192 ≤ pid ∧ pid ≤ 253 then
        match rest with
        | [] => none
        | dl :: rest2 =>
          if rest2.length < dl then none
          else some ((pid, rest2.take dl), rest2.drop dl)
      else
        if rest.length < dl0 then none
        else some ((pid, rest.take dl0), rest.drop dl0)

theorem pidStep_shrinks (xs : List Nat) (b : Nat × List Nat) (rest : List Nat)
    (h : pidStep xs = some (b, rest)) : rest.length < xs.length := by
  match xs with
  | [] => simp [pidStep] at h
  | pid :: tl =>
    simp only [pidStep] at h
    match hg : getPIDDataLength pid tl with
    | none => rw [hg] at h; simp at h
    | some dl0 =>
      rw [hg] at h
      simp only [] at h
      by_cases hv : 192 ≤ pid ∧ pid ≤ 253
      · rw [if_pos hv] at h
        match tl with
        | [] => simp at h
        | dl :: tl2 =>
          simp only [] at h
          by_cases hlen : tl2.length < dl
          · rw [if_pos hlen] at h; simp at h
          · rw [if_neg hlen] at h
            simp only [Option.some.injEq, Prod.mk.injEq] at h
            have := h.2
            subst this
            simp [List.length_drop]
            omega
      · rw [if_neg hv] at h
        by_cases hlen : tl.length < dl0
        · rw [if_pos hlen] at h; simp at h
        · rw [if_neg hlen] at h
          simp only [Option.some.injEq, Prod.mk.injEq] at h
          have := h.2
          subst this
          simp [List.length_drop]
          omega

/-- The full PID/data walk of `Bus.parseFrame`: collects the blocks the Go
loop processes, in order.  Total by construction (each step strictly
consumes input), which is the shallow-embedding form of "the walk never
reads out of bounds and always terminates". -/
def parseBlocks (xs : List Nat) : List (Nat × List Nat) :=
  match hs : pidStep xs with
  | none => []
  | some (b, rest) => b :: parseBlocks rest
termination_by xs.length
decreasing_by exact pidStep_shrinks xs b rest hs

theorem parseBlocks_eq_nil {xs : List Nat} (h : pidStep xs = none) :
    parseBlocks xs = [] := by
  rw [parseBlocks, h]

theorem parseBlocks_eq_cons {xs : List Nat} {b : Nat × List Nat}
    {rest : List Nat} (h : pidStep xs = some (b, rest)) :
    parseBlocks xs = b :: parseBlocks rest := by
  rw [parseBlocks, h]

/-- `Bus.parseFrame` (the command-capable agent's variant): length check,
checksum check, then `mid = frame[0]` and the walk over
`data = frame[1 : len(frame)-1]`.  Returns `none` where the Go function
logs and returns without processing. -/
def parseFrame (frame : List Nat) : Option (Nat × List (Nat × List Nat)) :=
  if frame.length < 3 then none
  else if validateJ1587Checksum frame = false then none
  else some (frame.headD 0, parseBlocks (frame.drop 1).dropLast)

/-! ## J1587 per-PID decode (`Bus.processPIDData`, `cmd/agent-j1587/bus.go`) -/

/-- `common.DTCCode` (`common/dtc_code.go`), without the environmental
`Timestamp` field.  Fields the producing path does not assign keep Go's
zero value `0`. -/
structure DTCCode where
  mid : Nat
  pid : Nat
  spn : Nat
  fmi : Nat
  oc : Nat
deriving DecidableEq, Repr

/-- An observable effect of `Bus.processPIDData`: a metric-table write
(`p.data.Set`) or a DTC record offered to `p.dtcChan`. -/
inductive Effect where
  | setMetric (key : String) (value : GoValue)
  | emitDTC (d : DTCCode)
deriving DecidableEq

/-- `Bus.processPIDData mid pid paramData`, translated case by case from the
Go `switch`.  `(int(b0)*256 + int(b1)) / 8` is Go integer division, so the
`EngineRPM` value is the integer quotient converted to `float64`. -/
def processPIDData (mid pid : Nat) (paramData : List Nat) : List Effect :=
  if pid = 84 then
    if 1 ≤ paramData.length then
      [.setMetric "Speed" (.num (paramData.getD 0 0 : ℚ))]
    else []
  else if pid = 190 then
    if 2 ≤ paramData.length then
      [.setMetric "EngineRPM"
        (.num (((paramData.getD 0 0 * 256 + paramData.getD 1 0) / 8 : ℕ) : ℚ))]
    else []
  else if pid = 110 then
    if 1 ≤ paramData.length then
      [.setMetric "EngineCoolantTemp" (.num (((paramData.getD 0 0 : ℤ) - 40 : ℤ) : ℚ))]
    else []
  else if pid = 100 then
    if 1 ≤ paramData.length then
      [.setMetric "EngineOilPressure" (.num ((paramData.getD 0 0 : ℚ) * 4))]
    else []
  else if pid = 91 then
    if 1 ≤ paramData.length then
      [.setMetric "EngineLoad" (.num (paramData.getD 0 0 : ℚ))]
    else []
  else if pid = 96 then
    if 1 ≤ paramData.length then
      [.setMetric "FuelLevel" (.num ((paramData.getD 0 0 : ℚ) / (255 / 100)))]
    else []
  else if pid = 168 then
    if 1 ≤ paramData.length then
      [.setMetric "BatteryVoltage" (.num ((paramData.getD 0 0 : ℚ) * (1 / 10)))]
    else []
  else if pid = 171 then
    if 1 ≤ paramData.length then
      [.setMetric "AmbientAirTemp" (.num (((paramData.getD 0 0 : ℤ) - 40 : ℤ) : ℚ))]
    else []
  else if pid = 245 then
    if 4 ≤ paramData.length then
      [.setMetric "TotalDistance"
        (.num (((paramData.getD 0 0 <<< 24 ||| paramData.getD 1 0 <<< 16 |||
          paramData.getD 2 0 <<< 8 ||| paramData.getD 3 0 : ℕ) : ℚ) * (1 / 10)))]
    else []
  else if pid = 194 ∨ pid = 195 then
    if 3 ≤ paramData.length then
      [.emitDTC
        { mid := mid
          pid := pid
          spn := paramData.getD 0 0
          fmi := paramData.getD 1 0 &&& 15
          oc := 0 }]
    else []
  else []

/-- Apply the metric writes of a list of effects to a metric map
(the DTC emissions go to a channel, not to the map). -/
def applyEffects (m : DataMap) (effs : List Effect) : DataMap :=
  effs.foldl
    (fun acc e =>
      match e with
      | .setMetric k v => mapSet acc k v
      | .emitDTC _ => acc)
    m

/-- Metric-table state after `Bus.parseFrame` handles one frame: each
walked block is passed to `processPIDData` in order. -/
def runFrame (m : DataMap) (frame : List Nat) : DataMap :=
  match parseFrame frame with
  | none => m
  | some (mid, blocks) =>
    blocks.foldl (fun acc blk => applyEffects acc (processPIDData mid blk.1 blk.2)) m

/-! ## DTC deduplication store (`pkg/storage/dtc.go`)

bbolt stores the key `fmt.Sprintf("%d:%d", spn, fmi)` in the single
`active_dtcs` bucket; the decimal rendering with a `:` separator is
injective on `(spn, fmi)` pairs, so the bucket contents are modelled as
the set of pairs present, kept as a list (`Store`).  `OpenDB` creates the
bucket and guarantees its presence; `ClearAll` deletes the bucket outright
and nothing recreates it, so the whole database state is `Option Store` —
`some` while the bucket exists, `none` once it has been deleted.  bbolt
transactions are serialized and durable; environmental I/O failure modes
are modelled where a claim needs them (`IsNewOutcome` below). -/

abbrev Store := List (Nat × Nat)

/-- `storage.IsNew`: returns `true` and records the key on first sighting,
`false` without modification afterwards. -/
def storeIsNew (s : Store) (spn fmi : Nat) : Bool × Store :=
  if (spn, fmi) ∈ s then (false, s) else (true, (spn, fmi) :: s)

/-- `storage.Remove`: deletes the `(spn, fmi)` record. -/
def storeRemove (s : Store) (spn fmi : Nat) : Store :=
  s.filter (fun k => k ≠ (spn, fmi))

/-- `storage.ClearAll`: `tx.DeleteBucket` removes the `active_dtcs` bucket
itself, not just its entries, and no caller or store operation recreates
it (only `OpenDB` does): the database is left with no bucket. -/
def storeClearAll (_ : Store) : Option Store := none

/-- `storage.IsNew` over the whole database state: while the bucket exists
it behaves as `storeIsNew`; once the bucket has been deleted, `tx.Bucket`
returns nil and `b.Get` on the nil `*bolt.Bucket` is a deterministic
nil-pointer panic inside the update transaction (bbolt does not recover
it), so no boolean is ever returned — modelled as `none`. -/
def dbIsNew (db : Option Store) (spn fmi : Nat) : Option (Bool × Store) :=
  match db with
  | none => none
  | some s => some (storeIsNew s spn fmi)

/-- Run `n` consecutive `storage.IsNew` calls with the same key, collecting
the returned booleans and the final store state. -/
def runIsNew (s : Store) (spn fmi : Nat) : Nat → List Bool × Store
  | 0 => ([], s)
  | n + 1 =>
    let p := storeIsNew s spn fmi
    let r := runIsNew p.2 spn fmi n
    (p.1 :: r.1, r.2)

/-! ## Steady-state dedup error handling (C3)

The bbolt call can fail; the outcome of one `storage.IsNew` call as seen by
its caller is either a boolean or an error. -/

/-- Result of a `storage.IsNew` call, including the environmental error
case. -/
inductive IsNewOutcome where
  | ok (isNew : Bool)
  | err
deriving DecidableEq

/-- The forward/drop decision of the J1587 steady-state loop
`Bus.StartProcessingDTCs` (bus.go): on `IsNew` error the loop logs and
`continue`s, so the record is not published; otherwise it is published
exactly when `isNew` is true. -/
def j1587ForwardsDTC (r : IsNewOutcome) : Bool :=
  match r with
  | .err => false
  | .ok b => b

/-- The forward/drop decision of the J1939 `FrameProcessor.parseDM1` dedup
block: with no database every record is sent; with a database an `IsNew`
error logs and falls through to the send ("отправим, чтобы не потерять
информацию"), and otherwise the record is sent exactly when new. -/
def dm1ForwardsDTC (dbPresent : Bool) (r : IsNewOutcome) : Bool :=
  if dbPresent then
    match r with
    | .err => true
    | .ok b => b
  else true

/-! ## J1939 frame processor (`src/unnamed` J1939 agent, `FrameProcessor`) -/

/-- `FrameProcessor.parseEEC1`: engine speed from bytes 4–5 (little-endian,
0.125 rpm/bit) with 0xFFFF sentinel, percent torque from byte 3 with 0xFF
sentinel and −125 offset.  A sentinel writes Go `nil` into the metric map. -/
def parseEEC1 (m : DataMap) (data : List Nat) : DataMap :=
  if data.length < 5 then m
  else
    let m1 :=
      if data.getD 3 0 ≠ 255 ∨ data.getD 4 0 ≠ 255 then
        let rpmRaw := data.getD 3 0 ||| data.getD 4 0 <<< 8
        mapSet m "EngineRPM" (.num ((rpmRaw : ℚ) * (1 / 8)))
      else mapSet m "EngineRPM" .null
    if data.getD 2 0 ≠ 255 then
      mapSet m1 "EngineLoad" (.num ((data.getD 2 0 : ℚ) - 125))
    else mapSet m1 "EngineLoad" .null

/-- One 4-byte DTC entry of a DM1/DM2 payload, decoded at `offset` as in
`FrameProcessor.parseDM1`: SPN low, SPN mid, (SPN high 3 bits `|` FMI
5 bits), (CM 1 bit `|` OC 7 bits); the source address becomes the MID. -/
def decodeDM1Entry (data : List Nat) (offset sa : Nat) : DTCCode :=
  let spnLow := data.getD offset 0
  let spnMid := data.getD (offset + 1) 0
  let spnHighBits := data.getD (offset + 2) 0 >>> 5
  { mid := sa
    pid := 0
    spn := spnLow ||| spnMid <<< 8 ||| spnHighBits <<< 16
    fmi := data.getD (offset + 2) 0 &&& 31
    oc := data.getD (offset + 3) 0 &&& 127 }

/-- The entry loop of `FrameProcessor.parseDM1`: `n` counts the remaining
iterations (initially `(len(data)-2)/4`), `i` is the Go loop index.  With a
database (`some s`) the record is sent only when `storeIsNew` says it is
new (the model store never errs; the error path is `dm1ForwardsDTC`); with
`db = none` every record is sent.  Returns the sent records in order and
the final store. -/
def parseDM1Loop (data : List Nat) (sa : Nat) :
    Nat → Nat → Option Store → List DTCCode × Option Store
  | _, 0, db => ([], db)
  | i, n + 1, db =>
    let offset := 2 + i * 4
    if data.length ≤ offset + 3 then ([], db)
    else
      let entry := decodeDM1Entry data offset sa
      match db with
      | some s =>
        let p := storeIsNew s entry.spn entry.fmi
        if p.1 then
          let r := parseDM1Loop data sa (i + 1) n (some p.2)
          (entry :: r.1, r.2)
        else
          parseDM1Loop data sa (i + 1) n (some p.2)
      | none =>
        let r := parseDM1Loop data sa (i + 1) n none
        (entry :: r.1, r.2)

/-- `FrameProcessor.parseDM1`: payloads shorter than 6 bytes carry no
complete DTC and are ignored; otherwise the first two lamp-status bytes are
skipped and `(len(data)-2)/4` complete 4-byte entries are decoded. -/
def parseDM1 (db : Option Store) (data : List Nat) (sa : Nat) :
    List DTCCode × Option Store :=
  if data.length < 6 then ([], db)
  else parseDM1Loop data sa 0 ((data.length - 2) / 4) db

/-! ## DTC channel (C8)

`dtcChan` has capacity 10 on both agents.  The J1587 emission point in
`processPIDData` is a `select`/`default`, i.e. a non-blocking try-send; the
J1939 `parseDM1`/`parseDM2` emission points are plain `ch <- dtc` sends,
which block while the channel is full.  A buffered channel is modelled as
its queue of buffered records. -/

/-- Capacity of `dtcChan` (`make(chan common.DTCCode, 10)` in both
agents). -/
def dtcChanCapacity : Nat := 10

/-- Non-blocking `select { case ch <- x: default: }`: appends when a buffer
slot is free and reports `true`; otherwise leaves the queue unchanged and
reports `false` (the Go code then logs and drops the record). -/
def chanTrySend (q : List DTCCode) (x : DTCCode) : List DTCCode × Bool :=
  if q.length < dtcChanCapacity then (q ++ [x], true) else (q, false)

/-- Plain `ch <- x` on the buffered channel: `some` of the new queue when a
slot is free, `none` when the send blocks the sending goroutine. -/
def chanBlockingSend (q : List DTCCode) (x : DTCCode) : Option (List DTCCode) :=
  if q.length < dtcChanCapacity then some (q ++ [x]) else none

/-! ## MQTT command handling (J1587 agent `handleMQTTCommand`,
`common/command.go`) -/

/-- `common.CommandTypeClearDTCs`, declared as the command type that
"предписывает сбросить активные коды неисправностей". -/
def CommandTypeClearDTCs : String := "clear_dtcs"

/-- `common.CommandParams` (the fields `handleMQTTCommand` reads). -/
structure CommandParams where
  targetMID : Option Nat
deriving DecidableEq

/-- `common.ServerCommand`. -/
structure ServerCommand where
  type : String
  params : CommandParams
deriving DecidableEq

/-- What `handleMQTTCommand` does with a command: invoke
`Bus.ClearActiveDTCs` on a target MID, or fall into the `default` branch
(log "Неизвестный тип команды" and return `nil`). -/
inductive CommandAction where
  | clearDTCs (targetMID : Nat)
  | unknownCommand
deriving DecidableEq

/-- `handleMQTTCommand` (J1587 agent): dispatches on the literal string
`"clear_dtc"`; the target MID defaults to 128 when absent. -/
def handleMQTTCommand (cmd : ServerCommand) : CommandAction :=
  if cmd.type = "clear_dtc" then
    CommandAction.clearDTCs (cmd.params.targetMID.getD 128)
  else CommandAction.unknownCommand

/-- `PID_COMMAND_CLEAR_DTCS` (J1587 agent constants file). -/
def PID_COMMAND_CLEAR_DTCS : Nat := 250

/-- Effect of `Bus.ClearActiveDTCs targetMID`: the frame written to the
serial port (`SendFrame(targetMID, PID_COMMAND_CLEAR_DTCS, nil)`) and the
dedup database after `storage.ClearAll` (bucket deleted). -/
def clearActiveDTCs (targetMID : Nat) (s : Store) : List Nat × Option Store :=
  (buildJ1587Frame targetMID PID_COMMAND_CLEAR_DTCS [], storeClearAll s)

/-! ## `ProtectedData` (`cmd/agent-j1587/data.go`)

Go maps are reference values, so whether `Copy` shares or duplicates the
underlying map is observable.  The heap of live `map[string]any` values is
modelled explicitly: a cell index is a map reference; `ProtectedData` and
`copiedDataMarshaler` each hold one reference.  `Set` mutates the
referenced cell in place; `Copy` allocates a fresh cell holding the same
pairs (the Go `make` + copy loop) and hands out its reference.  The mutex
only serializes these operations and has no sequential content. -/

/-- The heap of live metric maps; a reference is an index into `cells`. -/
structure Heap where
  cells : List DataMap
deriving DecidableEq

/-- Dereference a map. -/
def heapGet (h : Heap) (r : Nat) : DataMap :=
  h.cells.getD r []

/-- `ProtectedData.Set` on the map referenced by `pd`: in-place update. -/
def pdSet (h : Heap) (pd : Nat) (k : String) (v : GoValue) : Heap :=
  ⟨h.cells.set pd (mapSet (heapGet h pd) k v)⟩

/-- `ProtectedData.Copy`: allocates a fresh map holding the same key/value
pairs and returns the `copiedDataMarshaler`'s reference to it. -/
def pdCopy (h : Heap) (pd : Nat) : Heap × Nat :=
  (⟨h.cells ++ [heapGet h pd]⟩, h.cells.length)

/-- `copiedDataMarshaler.MarshalJSON` at wall-clock time `ts`: a fresh map
with the copied pairs plus `"timestamp" = ts` (the emitted JSON object is
exactly this map). -/
def marshalCopied (h : Heap) (r : Nat) (ts : String) : DataMap :=
  mapSet (heapGet h r) "timestamp" (.str ts)

/-! ## Helper lemmas -/

theorem validate_build (mid pid : Nat) (data : List Nat) :
    validateJ1587Checksum (buildJ1587Frame mid pid data) = true := by
  have hsum : (mid :: pid :: data ++ [calculateJ1587Checksum (mid :: pid :: data)]).sum % 256
      = 0 := by
    simp [calculateJ1587Checksum, List.sum_append]
    omega
  simp only [validateJ1587Checksum, buildJ1587Frame, List.cons_append] at *
  rw [if_neg (by simp), hsum]
  rfl

theorem parse_build (mid pid : Nat) (data : List Nat) :
    parseFrame (buildJ1587Frame mid pid data) = some (mid, parseBlocks (pid :: data)) := by
  have hv := validate_build mid pid data
  simp only [parseFrame, buildJ1587Frame, List.cons_append] at *
  rw [if_neg (by simp), hv]
  simp only [List.headD_cons, List.drop_succ_cons, List.drop_zero, Bool.true_eq_false,
    if_false, Option.some.injEq, Prod.mk.injEq, true_and]
  rw [show pid :: (data ++ [calculateJ1587Checksum (mid :: pid :: data)])
      = (pid :: data) ++ [calculateJ1587Checksum (mid :: pid :: data)] from rfl,
    List.dropLast_concat]

theorem pidStep_one (pid d : Nat) (rest : List Nat) (h : pid ≤ 127) :
    pidStep (pid :: d :: rest) = some ((pid, [d]), rest) := by
  have h2 : ¬(192 ≤ pid ∧ pid ≤ 253) := by omega
  simp [pidStep, getPIDDataLength, h, h2]

theorem pidStep_two (pid d0 d1 : Nat) (rest : List Nat) (h1 : 128 ≤ pid) (h2 : pid ≤ 191) :
    pidStep (pid :: d0 :: d1 :: rest) = some ((pid, [d0, d1]), rest) := by
  have h3 : ¬pid ≤ 127 := by omega
  have h4 : ¬(192 ≤ pid ∧ pid ≤ 253) := by omega
  simp [pidStep, getPIDDataLength, h2, h3, h4]

theorem pidStep_var (pid dl : Nat) (rest2 : List Nat) (h1 : 192 ≤ pid) (h2 : pid ≤ 253)
    (hlen : dl ≤ rest2.length) :
    pidStep (pid :: dl :: rest2) = some ((pid, rest2.take dl), rest2.drop dl) := by
  have h3 : ¬pid ≤ 127 := by omega
  have h4 : ¬pid ≤ 191 := by omega
  have h5 : ¬rest2.length < dl := by omega
  simp [pidStep, getPIDDataLength, h2, h3, h4, h5, h1]

theorem pidStep_var_overrun (pid dl : Nat) (rest2 : List Nat) (h1 : 192 ≤ pid)
    (h2 : pid ≤ 253) (hlen : rest2.length < dl) :
    pidStep (pid :: dl :: rest2) = none := by
  have h3 : ¬pid ≤ 127 := by omega
  have h4 : ¬pid ≤ 191 := by omega
  simp [pidStep, getPIDDataLength, h2, h3, h4, hlen, h1]

/-! ## Claim C1 -/

/-- C1 counterexample: the claim asserts that parsing `encode(mid, pid, data)`
recovers the original MID, PID and data for EVERY byte sequence.  At
`mid = 128, pid = 84, data = []` the encoded frame passes the checksum
validator, but the PID walk aborts (PID 84 demands 1 data byte and only the
checksum had followed), so the parse yields no `(pid, data)` block at all:
the PID and data are not recovered. -/
theorem C1_counterexample :
    validateJ1587Checksum (buildJ1587Frame 128 84 []) = true
    ∧ parseFrame (buildJ1587Frame 128 84 []) = some (128, [])
    ∧ ([] : List (Nat × List Nat)) ≠ [(84, ([] : List Nat))] := by
  refine ⟨by decide, ?_, by decide⟩
  have h1 : pidStep [84] = none := by rfl
  norm_num [parseFrame, buildJ1587Frame, calculateJ1587Checksum, validateJ1587Checksum,
    parseBlocks_eq_nil h1]

/-- C1 (amended): for every MID byte, PID byte and data byte sequence, the
frame built with `calculateJ1587Checksum` is accepted by
`validateJ1587Checksum`, and parsing recovers the MID; the PID and data
bytes are recovered whenever the data length matches the PID's length
class — 1 byte for PID 0–127, 2 bytes for PID 128–191, and for PID 192–253
a leading explicit length byte equal to the number of following data bytes
(which the parser consumes, recovering the bytes after it). -/
theorem C1_roundtrip_amended (mid pid : Nat) (data : List Nat) :
    validateJ1587Checksum (buildJ1587Frame mid pid data) = true
    ∧ (parseFrame (buildJ1587Frame mid pid data)).map Prod.fst = some mid
    ∧ (pid ≤ 127 → data.length = 1 →
        parseFrame (buildJ1587Frame mid pid data) = some (mid, [(pid, data)]))
    ∧ (128 ≤ pid → pid ≤ 191 → data.length = 2 →
        parseFrame (buildJ1587Frame mid pid data) = some (mid, [(pid, data)]))
    ∧ (192 ≤ pid → pid ≤ 253 → ∀ rest, data = rest.length :: rest →
        parseFrame (buildJ1587Frame mid pid data) = some (mid, [(pid, rest)])) := by
  refine ⟨validate_build mid pid data, ?_, ?_, ?_, ?_⟩
  · rw [parse_build]; rfl
  · intro h hl
    cases data with
    | nil => simp at hl
    | cons d t =>
      cases t with
      | nil =>
        rw [parse_build, parseBlocks_eq_cons (pidStep_one pid d [] h),
          parseBlocks_eq_nil (show pidStep [] = none from rfl)]
      | cons _ _ => simp at hl
  · intro h1 h2 hl
    cases data with
    | nil => simp at hl
    | cons d0 t =>
      cases t with
      | nil => simp at hl
      | cons d1 t2 =>
        cases t2 with
        | nil =>
          rw [parse_build, parseBlocks_eq_cons (pidStep_two pid d0 d1 [] h1 h2),
            parseBlocks_eq_nil (show pidStep [] = none from rfl)]
        | cons _ _ => simp at hl
  · intro h1 h2 rest hdata
    subst hdata
    have hstep := pidStep_var pid rest.length rest h1 h2 (le_refl _)
    rw [parse_build, parseBlocks_eq_cons hstep, List.take_length, List.drop_length,
      parseBlocks_eq_nil (show pidStep [] = none from rfl)]

/-- C1 witness: the spec's speed scenario `[MID=128, PID=84, DATA=0x32]`
round-trips. -/
theorem C1_roundtrip_amended_witness :
    validateJ1587Checksum (buildJ1587Frame 128 84 [50]) = true
    ∧ parseFrame (buildJ1587Frame 128 84 [50]) = some (128, [(84, [50])]) :=
  ⟨(C1_roundtrip_amended 128 84 [50]).1,
   (C1_roundtrip_amended 128 84 [50]).2.2.1 (by decide) (by decide)⟩

/-! ## Claim C5 -/

/-- C5: in the PID/data walk, a PID in 192–253 with an explicit length byte
of 0 yields an empty data block and the walk continues at the byte
immediately after the length byte; a length byte exceeding the remaining
bytes terminates the walk (which, as the total function `parseBlocks`,
never reads out of bounds). -/
theorem C5_variable_length_boundary (pid : Nat) (h1 : 192 ≤ pid) (h2 : pid ≤ 253) :
    (∀ rest : List Nat,
      pidStep (pid :: 0 :: rest) = some ((pid, []), rest)
      ∧ parseBlocks (pid :: 0 :: rest) = (pid, []) :: parseBlocks rest)
    ∧ (∀ (dl : Nat) (rest2 : List Nat), rest2.length < dl →
      pidStep (pid :: dl :: rest2) = none ∧ parseBlocks (pid :: dl :: rest2) = []) := by
  constructor
  · intro rest
    have hstep := pidStep_var pid 0 rest h1 h2 (Nat.zero_le _)
    simp only [List.take_zero, List.drop_zero] at hstep
    exact ⟨hstep, parseBlocks_eq_cons hstep⟩
  · intro dl rest2 hlen
    have hstep := pidStep_var_overrun pid dl rest2 h1 h2 hlen
    exact ⟨hstep, parseBlocks_eq_nil hstep⟩

/-- C5 witness: PID 200 with length byte 0 continues at `[7]`; PID 200 with
length byte 5 but one remaining byte terminates the walk. -/
theorem C5_variable_length_boundary_witness :
    (pidStep [200, 0, 7] = some ((200, []), [7])
      ∧ parseBlocks [200, 0, 7] = (200, []) :: parseBlocks [7])
    ∧ (pidStep [200, 5, 1] = none ∧ parseBlocks [200, 5, 1] = []) :=
  ⟨(C5_variable_length_boundary 200 (by decide) (by decide)).1 [7],
   (C5_variable_length_boundary 200 (by decide) (by decide)).2 5 [1] (by decide)⟩

/-! ## Claim C6 -/

/-- C6 counterexample: the valid frame `[128, 190, 0, 9, 185]` carries
PID 190 with data bytes `b0 = 0, b1 = 9`.  The claim demands
`EngineRPM = 9/8 = 1.125`, but `Bus.processPIDData` computes
`(int(b0)*256 + int(b1)) / 8` with Go integer division before converting
to `float64`, so the stored metric is `1.0`. -/
theorem C6_counterexample :
    validateJ1587Checksum [128, 190, 0, 9, 185] = true
    ∧ (runFrame [] [128, 190, 0, 9, 185]).lookup "EngineRPM" = some (.num 1)
    ∧ GoValue.num 1 ≠ GoValue.num ((0 * 256 + 9 : ℚ) / 8) := by
  refine ⟨by decide, ?_, by norm_num⟩
  have h1 : pidStep [190, 0, 9] = some ((190, [0, 9]), []) := by rfl
  have h2 : pidStep ([] : List Nat) = none := by rfl
  norm_num [runFrame, parseFrame, validateJ1587Checksum,
    parseBlocks_eq_cons h1, parseBlocks_eq_nil h2, processPIDData, applyEffects, mapSet,
    List.lookup]

/-- C6 (amended): for every PID 190 block with data bytes `b0, b1`, the
EngineRPM metric written is the INTEGER quotient `(b0·256 + b1) div 8`,
converted to `float64` (so `b0 = 0, b1 = 9` gives `1.0`, not `1.125`);
shown both for the block decode and for a full valid frame. -/
theorem C6_engine_rpm_amended (mid b0 b1 : Nat) (rest : List Nat) :
    processPIDData mid 190 (b0 :: b1 :: rest)
      = [Effect.setMetric "EngineRPM" (.num (((b0 * 256 + b1) / 8 : ℕ) : ℚ))]
    ∧ (runFrame [] (buildJ1587Frame mid 190 [b0, b1])).lookup "EngineRPM"
      = some (.num (((b0 * 256 + b1) / 8 : ℕ) : ℚ)) := by
  have hpid : processPIDData mid 190 (b0 :: b1 :: rest)
      = [Effect.setMetric "EngineRPM" (.num (((b0 * 256 + b1) / 8 : ℕ) : ℚ))] := by
    simp [processPIDData]
  refine ⟨hpid, ?_⟩
  have hp := parse_build mid 190 [b0, b1]
  have hstep := pidStep_two 190 b0 b1 [] (by norm_num) (by norm_num)
  simp only [runFrame, hp, parseBlocks_eq_cons hstep,
    parseBlocks_eq_nil (show pidStep [] = none from rfl), List.foldl]
  simp [processPIDData, applyEffects, mapSet, List.lookup]

/-! ## Claim C2 -/

theorem runIsNew_mem (spn fmi : Nat) (n : Nat) :
    ∀ s : Store, (spn, fmi) ∈ s → runIsNew s spn fmi n = (List.replicate n false, s) := by
  induction n with
  | zero => intro s _; simp [runIsNew]
  | succ m ih =>
    intro s hmem
    simp only [runIsNew, storeIsNew, if_pos hmem]
    rw [ih s hmem]
    simp [List.replicate]

/-- C2: starting from a store not containing `(spn, fmi)`, a sequence of
`n ≥ 1` `IsNew` calls with that key returns `true` first and `false` for
the remaining `n − 1`, and after `Remove` of the key the next `IsNew`
returns `true` again — but the `ClearAll` part of the claim fails on the
code: `ClearAll` deletes the bbolt bucket and nothing recreates it, so the
next `IsNew` call dereferences the nil bucket and panics deterministically
instead of returning `true` (`dbIsNew` yields no boolean at all). -/
theorem C2_dedup_and_clearall_panic (s : Store) (spn fmi n : Nat) (hn : 1 ≤ n)
    (hnew : (spn, fmi) ∉ s) :
    (runIsNew s spn fmi n).1 = true :: List.replicate (n - 1) false
    ∧ (∀ s2 : Store, (storeIsNew (storeRemove s2 spn fmi) spn fmi).1 = true)
    ∧ (∀ s2 : Store, dbIsNew (storeClearAll s2) spn fmi = none) := by
  refine ⟨?_, ?_, ?_⟩
  · obtain ⟨m, rfl⟩ : ∃ m, n = m + 1 := ⟨n - 1, by omega⟩
    simp only [runIsNew, storeIsNew, if_neg hnew]
    rw [runIsNew_mem spn fmi m ((spn, fmi) :: s) (by simp)]
    simp
  · intro s2
    have hnotin : (spn, fmi) ∉ storeRemove s2 spn fmi := by
      simp [storeRemove, List.mem_filter]
    simp [storeIsNew, hnotin]
  · intro s2
    rfl

/-- C2 witness: three sightings of `(100, 1)` from the empty store, the
`Remove` reset, and the post-`ClearAll` nil-bucket state. -/
theorem C2_dedup_and_clearall_panic_witness :
    (runIsNew [] 100 1 3).1 = true :: List.replicate 2 false
    ∧ (storeIsNew (storeRemove [(100, 1)] 100 1) 100 1).1 = true
    ∧ dbIsNew (storeClearAll [(100, 1)]) 100 1 = none :=
  ⟨(C2_dedup_and_clearall_panic [] 100 1 3 (by decide) (by decide)).1,
   (C2_dedup_and_clearall_panic [] 100 1 3 (by decide) (by decide)).2.1 [(100, 1)],
   (C2_dedup_and_clearall_panic [] 100 1 3 (by decide) (by decide)).2.2 [(100, 1)]⟩

/-! ## Claim C3 -/

/-- C3 counterexample: the claim asserts that a dedup-store error forwards
the record on BOTH paths, but the J1587 steady-state loop
(`Bus.StartProcessingDTCs`) `continue`s on an `IsNew` error, dropping the
record instead of publishing it. -/
theorem C3_counterexample : j1587ForwardsDTC IsNewOutcome.err = false := rfl

/-- C3 (amended): on the J1939 DM1 path a dedup-store error still forwards
the DTCRecord (treated as new), but on the J1587 path an `IsNew` error
drops the record (`continue`); on both paths an error-free check forwards
exactly the new records. -/
theorem C3_dedup_error_amended :
    dm1ForwardsDTC true IsNewOutcome.err = true
    ∧ j1587ForwardsDTC IsNewOutcome.err = false
    ∧ (∀ b, dm1ForwardsDTC true (IsNewOutcome.ok b) = b)
    ∧ (∀ b, j1587ForwardsDTC (IsNewOutcome.ok b) = b) :=
  ⟨rfl, rfl, fun _ => rfl, fun _ => rfl⟩

/-! ## Claim C4 -/

/-- C4 counterexample: decoding the DM1 payload
`[0x00, 0x00, 0x01, 0x02, 0x43, 0x05]` yields SPN
`0x01 ||| 0x02 <<< 8 ||| (0x43 >>> 5) <<< 16 = 0x20201 = 131585`, not the
claim's `0x10201` (the claim's formula is right; its evaluated value is
not: `0x43 >>> 5 = 2`, so the high segment is `0x20000`). -/
theorem C4_counterexample :
    (parseDM1 (some []) [0, 0, 1, 2, 67, 5] 0).1.map DTCCode.spn = [131585]
    ∧ (131585 : Nat) ≠ 0x10201 := by decide

/-- C4 (amended): decoding the DM1 payload `[0x00,0x00,0x01,0x02,0x43,0x05]`
produces exactly one DTCRecord, with
SPN = 0x01 | (0x02<<8) | ((0x43>>5)<<16) = 0x20201 = 131585,
FMI = 0x43 & 0x1F = 3 and OC = 0x05 & 0x7F = 5. -/
theorem C4_dm1_scenario_amended :
    parseDM1 (some []) [0, 0, 1, 2, 67, 5] 0
      = ([{ mid := 0, pid := 0, spn := 131585, fmi := 3, oc := 5 }], some [(131585, 3)])
    ∧ (131585 : Nat) = 1 ||| 2 <<< 8 ||| (67 >>> 5) <<< 16
    ∧ (3 : Nat) = 67 &&& 31
    ∧ (5 : Nat) = 5 &&& 127 := by decide

/-! ## Claim C7 -/

/-- C7: the EEC1 payload `[0xFF,0xFF,0xFF,0x10,0x27,0xFF,0xFF,0xFF]` sets
`EngineRPM = (0x10 + 0x27·256) · 0.125 = 1250.0` and, byte 2 being the
0xFF sentinel, clears `EngineLoad` to the unavailable marker (Go `nil`)
instead of writing a numeric value. -/
theorem C7_eec1_scenario :
    (parseEEC1 [] [255, 255, 255, 16, 39, 255, 255, 255]).lookup "EngineRPM"
      = some (.num 1250)
    ∧ (parseEEC1 [] [255, 255, 255, 16, 39, 255, 255, 255]).lookup "EngineLoad"
      = some .null := by
  have h1 : ("EngineRPM" == "EngineLoad") = false := by rfl
  have h2 : ("EngineLoad" == "EngineLoad") = true := by rfl
  have h3 : (16 ||| 39 <<< 8 : ℕ) = 10000 := by rfl
  constructor <;> norm_num [parseEEC1, mapSet, List.lookup, List.filter, h1, h2, h3]

/-! ## Claim C8 -/

/-- C8 counterexample: with the 10-slot DTC channel full, the J1939
DM1/DM2 emission (`fp.dtcChan <- dtc`, a plain send) blocks
(`chanBlockingSend` has no completed state), contradicting the claim that
every emission point drops the overflow record instead of blocking; the
J1587 emission (select/default) does drop it. -/
theorem C8_counterexample :
    chanBlockingSend (List.replicate 10 ⟨0, 0, 0, 0, 0⟩) ⟨0, 0, 1, 2, 3⟩ = none
    ∧ chanTrySend (List.replicate 10 ⟨0, 0, 0, 0, 0⟩) ⟨0, 0, 1, 2, 3⟩
      = (List.replicate 10 ⟨0, 0, 0, 0, 0⟩, false) := by decide

/-- C8 (amended): the J1587 DTC emission point (select/default) never
blocks — it drops the record when the channel is full and enqueues it
otherwise; the J1939 DM1/DM2 emission points are plain channel sends,
which enqueue when a slot is free but block while the channel is full. -/
theorem C8_drop_on_full_amended (q : List DTCCode) (x : DTCCode) :
    (dtcChanCapacity ≤ q.length → chanTrySend q x = (q, false))
    ∧ (q.length < dtcChanCapacity → chanTrySend q x = (q ++ [x], true))
    ∧ (dtcChanCapacity ≤ q.length → chanBlockingSend q x = none)
    ∧ (q.length < dtcChanCapacity → chanBlockingSend q x = some (q ++ [x])) := by
  refine ⟨fun h => ?_, fun h => ?_, fun h => ?_, fun h => ?_⟩
  · rw [chanTrySend, if_neg (by omega)]
  · rw [chanTrySend, if_pos h]
  · rw [chanBlockingSend, if_neg (by omega)]
  · rw [chanBlockingSend, if_pos h]

/-- C8 witness: concrete full (10 records) and empty channel states. -/
theorem C8_drop_on_full_amended_witness :
    chanTrySend (List.replicate 10 ⟨0, 0, 0, 0, 0⟩) ⟨0, 0, 0, 0, 0⟩
      = (List.replicate 10 ⟨0, 0, 0, 0, 0⟩, false)
    ∧ chanBlockingSend (List.replicate 10 ⟨0, 0, 0, 0, 0⟩) ⟨0, 0, 0, 0, 0⟩ = none
    ∧ chanTrySend [] ⟨0, 0, 0, 0, 0⟩ = ([⟨0, 0, 0, 0, 0⟩], true)
    ∧ chanBlockingSend [] ⟨0, 0, 0, 0, 0⟩ = some [⟨0, 0, 0, 0, 0⟩] :=
  ⟨(C8_drop_on_full_amended _ _).1 (by decide),
   (C8_drop_on_full_amended _ _).2.2.1 (by decide),
   (C8_drop_on_full_amended _ _).2.1 (by decide),
   (C8_drop_on_full_amended _ _).2.2.2 (by decide)⟩

/-! ## Claim C9 -/

/-- C9: a command whose `Type` is the declared constant
`CommandTypeClearDTCs = "clear_dtcs"` with no `TargetMID` falls into the
handler's `default` branch (the handler dispatches on the literal
`"clear_dtc"`), so no clear-DTCs frame is sent and no `clear_all` runs —
contradicting the constant's own declared purpose.  Had the branch been
taken (as it is for the literal `"clear_dtc"`), the default MID 128 would
receive the `PID_COMMAND_CLEAR_DTCS` frame `[128, 250, 134]` and
`storage.ClearAll` would delete the dedup bucket. -/
theorem C9_clear_dtcs_type_mismatch :
    handleMQTTCommand { type := CommandTypeClearDTCs, params := { targetMID := none } }
      = CommandAction.unknownCommand
    ∧ CommandAction.unknownCommand ≠ CommandAction.clearDTCs 128
    ∧ handleMQTTCommand { type := "clear_dtc", params := { targetMID := none } }
      = CommandAction.clearDTCs 128
    ∧ clearActiveDTCs 128 [(100, 1)] = ([128, 250, 134], none) := by decide

/-! ## Claim C10 -/

theorem heapGet_pdCopy (h : Heap) (pd : Nat) :
    heapGet (pdCopy h pd).1 (pdCopy h pd).2 = heapGet h pd := by
  simp [pdCopy, heapGet, List.getD]

theorem pdSet_other (h2 : Heap) (pd r : Nat) (hne : pd ≠ r) (k : String) (v : GoValue) :
    heapGet (pdSet h2 pd k v) r = heapGet h2 r := by
  simp [pdSet, heapGet, List.getD, List.getElem?_set_ne hne]

theorem foldl_pdSet_other (pd r : Nat) (hne : pd ≠ r)
    (ops : List (String × GoValue)) :
    ∀ h2 : Heap, heapGet (ops.foldl (fun hh kv => pdSet hh pd kv.1 kv.2) h2) r
      = heapGet h2 r := by
  induction ops with
  | nil => intro h2; rfl
  | cons op rest ih =>
    intro h2
    rw [List.foldl_cons, ih, pdSet_other h2 pd r hne]

theorem lookup_filter_ne (k k2 : String) (hne : k2 ≠ k) :
    ∀ m : DataMap, (m.filter fun p => p.1 ≠ k).lookup k2 = m.lookup k2 := by
  intro m
  have hbk : (k2 == k) = false := by simp [hne]
  induction m with
  | nil => rfl
  | cons p t ih =>
    simp only [ne_eq, decide_not] at ih ⊢
    by_cases hp : p.1 = k
    · have hb : (k2 == p.1) = false := by simp [hp, hne]
      simp [List.filter_cons, List.lookup, hp, hb, hbk, ih]
    · cases hbe : (k2 == p.1) <;>
        simp [List.filter_cons, List.lookup, hp, hbe, hbk, ih]

theorem lookup_mapSet_self (m : DataMap) (k : String) (v : GoValue) :
    (mapSet m k v).lookup k = some v := by
  simp [mapSet, List.lookup]

theorem lookup_mapSet_ne (m : DataMap) (k k2 : String) (v : GoValue) (hne : k2 ≠ k) :
    (mapSet m k v).lookup k2 = m.lookup k2 := by
  have hb : (k2 == k) = false := by simp [hne]
  simp only [mapSet, List.lookup, hb]
  exact lookup_filter_ne k k2 hne m

theorem mem_mapSet (m : DataMap) (k : String) (v : GoValue) (p : String × GoValue)
    (hp : p ∈ mapSet m k v) : p.1 = k ∨ p ∈ m := by
  simp only [mapSet, List.mem_cons, List.mem_filter] at hp
  rcases hp with h1 | h2
  · left; rw [h1]
  · right; exact h2.1

/-- C10: for every heap state and valid `ProtectedData` reference `pd`, the
marshaler returned by `Copy` references a snapshot holding exactly the
pairs present at the call; any sequence of later `Set` operations on the
`ProtectedData` leaves the snapshot unchanged; and `MarshalJSON` of the
snapshot emits a map whose `"timestamp"` key holds the serialization-time
stamp, whose every other key holds the snapshot's value for it, and which
contains no pair beyond the snapshot pairs and the timestamp. -/
theorem C10_copy_snapshot (h : Heap) (pd : Nat) (hpd : pd < h.cells.length)
    (ops : List (String × GoValue)) (ts : String) :
    heapGet (pdCopy h pd).1 (pdCopy h pd).2 = heapGet h pd
    ∧ heapGet (ops.foldl (fun hh kv => pdSet hh pd kv.1 kv.2) (pdCopy h pd).1)
        (pdCopy h pd).2 = heapGet h pd
    ∧ (marshalCopied (pdCopy h pd).1 (pdCopy h pd).2 ts).lookup "timestamp"
      = some (.str ts)
    ∧ (∀ k, k ≠ "timestamp" →
        (marshalCopied (pdCopy h pd).1 (pdCopy h pd).2 ts).lookup k
          = (heapGet h pd).lookup k)
    ∧ (∀ p, p ∈ marshalCopied (pdCopy h pd).1 (pdCopy h pd).2 ts →
        p.1 = "timestamp" ∨ p ∈ heapGet h pd) := by
  have hne : pd ≠ (pdCopy h pd).2 := by
    simp only [pdCopy]
    omega
  have hcopy := heapGet_pdCopy h pd
  refine ⟨hcopy, ?_, ?_, ?_, ?_⟩
  · rw [foldl_pdSet_other pd (pdCopy h pd).2 hne ops (pdCopy h pd).1, hcopy]
  · rw [marshalCopied, hcopy, lookup_mapSet_self]
  · intro k hk
    rw [marshalCopied, hcopy, lookup_mapSet_ne _ _ _ _ hk]
  · intro p hp
    rw [marshalCopied, hcopy] at hp
    exact mem_mapSet _ _ _ p hp

/-- C10 witness: a one-cell heap holding `Speed = 50`; a later
`Set("Speed", 60)` does not change the copied snapshot, and marshalling it
adds the timestamp. -/
theorem C10_copy_snapshot_witness :
    heapGet
        ([(("Speed" : String), GoValue.num 60)].foldl
          (fun hh kv => pdSet hh 0 kv.1 kv.2)
          (pdCopy ⟨[[("Speed", GoValue.num 50)]]⟩ 0).1)
        (pdCopy ⟨[[("Speed", GoValue.num 50)]]⟩ 0).2
      = [("Speed", GoValue.num 50)]
    ∧ (marshalCopied (pdCopy ⟨[[("Speed", GoValue.num 50)]]⟩ 0).1
        (pdCopy ⟨[[("Speed", GoValue.num 50)]]⟩ 0).2 "T").lookup "timestamp"
      = some (.str "T") :=
  ⟨(C10_copy_snapshot ⟨[[("Speed", GoValue.num 50)]]⟩ 0 (by decide)
      [("Speed", GoValue.num 60)] "T").2.1,
   (C10_copy_snapshot ⟨[[("Speed", GoValue.num 50)]]⟩ 0 (by decide)
      [("Speed", GoValue.num 60)] "T").2.2.1⟩

end J1708Stats
